import Mathlib

/-!
# SpiderMonkey JIT unwinder: embedding of `sm-unwinder.c` and `py-jit.c`

The two gdb JIT readers are embedded as pure functions that return, next to
their C result, the list of calls they made on the host (`gdb->reg_get`,
`gdb->target_read`, `gdb->reg_set`, `value->free`, Python method calls and
reference-count operations).

Conventions.
* `GDB_CORE_ADDR` is the 64-bit unsigned type of `gdb/jit-reader.h`; every
  operation on it is reduced modulo `2 ^ 64`.
* `unsigned char` is `Fin 256`.
* `assert` is live (the sources never define `NDEBUG`): a failed assertion ends
  the call with `Outcome.assert_failed`.
* A byte buffer is a `List Byte`; a read past the end of the list yields `0`.
  A host that stores the number of bytes it is asked for never causes one, and
  every concrete target below is such a host.
* The result of `malloc` in `allocate_register` is used unchecked by the
  source; that allocation is taken to succeed.
-/

namespace SpiderMonkey

/-! ## Types of `gdb/jit-reader.h` -/

/-- The C type `unsigned char`. -/
abbrev Byte := Fin 256

/-- Modulus of the unsigned 64-bit type `GDB_CORE_ADDR`. -/
def CORE_ADDR_MOD : Nat := 2 ^ 64

/-- The enumeration `enum gdb_status` of `gdb/jit-reader.h`. -/
inductive gdb_status where
  | GDB_FAIL
  | GDB_SUCCESS
deriving DecidableEq, Repr

/-- The function stored in the `free` member of a `struct gdb_reg_value`:
the host's own releaser, `do_free` of `sm-unwinder.c`, or `free_value` of
`py-jit.c`. -/
inductive gdb_reg_value_free where
  | host
  | do_free
  | free_value
deriving DecidableEq, Repr

/-- The C structure `struct gdb_reg_value`: `int size; int defined;
gdb_reg_value_free *free; unsigned char value[]`. -/
structure gdb_reg_value where
  size : Int
  defined : Int
  free : gdb_reg_value_free
  value : List Byte
deriving DecidableEq, Repr

/-- The C structure `struct gdb_frame_id`. -/
structure gdb_frame_id where
  code_address : Nat
  stack_address : Nat
deriving DecidableEq, Repr

/-- The read side of `struct gdb_unwind_callbacks` for one unwind step:
`reg_get` answers a register number with a register value, `target_read addr
len` answers `none` for `GDB_FAIL` and `some data` for `GDB_SUCCESS` with the
bytes stored in the caller's buffer.  The write side, `reg_set`, is recorded
in the call log. -/
structure gdb_unwind_callbacks where
  reg_get : Int → gdb_reg_value
  target_read : Nat → Nat → Option (List Byte)

/-- Python objects that are not containers: `None`, an integer (`int` or
`long`), a `bytearray`, or any other object, one with no truth, number,
iterator or buffer protocol (a plain class instance, such as a reader). -/
inductive PyAtom where
  | None
  | Int (n : Int)
  | Bytes (bs : List Byte)
  | Object (id : Nat)
deriving DecidableEq, Repr

/-- Python objects (`PyObject *`, non-null): an atom, a tuple or a list. -/
inductive PyObject where
  | atom (a : PyAtom)
  | tuple (items : List PyAtom)
  | list (items : List PyAtom)
deriving DecidableEq, Repr

/-- The two methods `py-jit.c` calls on the registered reader. -/
inductive Method where
  | unwind
  | get_frame_id
deriving DecidableEq, Repr

/-- One call made on the host during `unwind` or `get_frame_id`, or one
Python method call made by `py-jit.c` on the registered reader. -/
inductive Event where
  | reg_get (regnum : Int)
  | target_read (addr : Nat) (len : Nat)
  | reg_set (regnum : Int) (v : gdb_reg_value)
  | free (v : gdb_reg_value)
  | call_method (self : PyObject) (name : Method)
deriving DecidableEq, Repr

/-- How a C call ends: it returns a value, an `assert` fails and the
process aborts, it dereferences a null pointer, or it increments an `int`
that holds `INT_MAX` (signed overflow, after which C promises nothing). -/
inductive Outcome (α : Type) where
  | returned (a : α)
  | assert_failed
  | null_deref
  | signed_overflow
deriving DecidableEq, Repr

/-- The `reg_set` calls of a log, in order. -/
def reg_sets : List Event → List (Int × gdb_reg_value)
  | [] => []
  | Event.reg_set n v :: es => (n, v) :: reg_sets es
  | _ :: es => reg_sets es

/-- The `target_read` calls of a log, in order. -/
def target_reads : List Event → List (Nat × Nat)
  | [] => []
  | Event.target_read a l :: es => (a, l) :: target_reads es
  | _ :: es => target_reads es

/-- The values released through `free` in a log, in order. -/
def frees : List Event → List gdb_reg_value
  | [] => []
  | Event.free v :: es => v :: frees es
  | _ :: es => frees es

/-- The Python method calls of a log, in order. -/
def method_calls : List Event → List (PyObject × Method)
  | [] => []
  | Event.call_method o m :: es => (o, m) :: method_calls es
  | _ :: es => method_calls es

/-! ## `sm-unwinder.c` -/

def AMD64_RSP_REGNUM : Int := 7
def AMD64_RIP_REGNUM : Int := 16
def TARGET_WORD_SIZE : Int := 8
def SM_SIZEOF_VOIDP : Int := 8
def SM_OFFSET_RETURN_ADDRESS : Int := 0
def SM_OFFSET_DESCRIPTOR : Int := 8
def SM_ENTRYFRAME_SIZE : Int := 32
def FRAMESIZE_SHIFT : Nat := 4
def FRAMETYPE_BITS : Nat := 4

/-- Conversion of a C `int` to `GDB_CORE_ADDR`. -/
def to_core_addr (i : Int) : Nat := (i % (CORE_ADDR_MOD : Int)).toNat

/-- Addition in `GDB_CORE_ADDR`. -/
def core_add (a b : Nat) : Nat := (a + b) % CORE_ADDR_MOD

/-- The loop of `bytes_to_value`: `for (i = size; i > 0; --i)
result = result << 8 | *value++;`. -/
def bytes_to_value_loop : Nat → List Byte → Nat → Nat
  | 0, _, result => result
  | i + 1, value, result =>
      bytes_to_value_loop i value.tail
        (((result <<< 8) % CORE_ADDR_MOD) ||| (value.headD 0).val)

/-- The C function `bytes_to_value (int size, unsigned char *value)`. -/
def bytes_to_value (size : Int) (value : List Byte) : Nat :=
  bytes_to_value_loop size.toNat value 0

/-- The C function `spidermonkey_read`: nothing to do. -/
def spidermonkey_read : gdb_status := gdb_status.GDB_SUCCESS

/-- The loop of `allocate_register`: `for (i = 0; i < size; ++i)
{ result->value[i] = bytes & 0xff; bytes >>= 8; }`. -/
def allocate_register_loop : Nat → Nat → List Byte
  | 0, _ => []
  | n + 1, bytes => Fin.ofNat (bytes &&& 0xff) :: allocate_register_loop n (bytes >>> 8)

/-- The C function `allocate_register (int size, GDB_CORE_ADDR bytes)`.  The
result of `malloc` is not checked by the source; allocation is taken to
succeed. -/
def allocate_register (size : Int) (bytes : Nat) : gdb_reg_value :=
  { size := size
    defined := 1
    free := gdb_reg_value_free.do_free
    value := allocate_register_loop size.toNat bytes }

/-- The test of `spidermonkey_unwind` that sends it to `fail`:
`(descriptor & ((1 << FRAMETYPE_BITS) - 1)) > 12
 || (descriptor >> FRAMESIZE_SHIFT) > 150`. -/
def descriptor_rejected (descriptor : Nat) : Bool :=
  decide ((descriptor &&& ((1 <<< FRAMETYPE_BITS) - 1)) > 12)
    || decide ((descriptor >>> FRAMESIZE_SHIFT) > 150)

/-- The C function `spidermonkey_unwind`, with the log of its host calls. -/
def spidermonkey_unwind (gdb : gdb_unwind_callbacks) :
    Outcome gdb_status × List Event :=
  let value := gdb.reg_get AMD64_RSP_REGNUM
  let log0 := [Event.reg_get AMD64_RSP_REGNUM]
  if value.defined = 0 then
    (Outcome.returned gdb_status.GDB_FAIL, log0 ++ [Event.free value])
  else if value.size ≠ TARGET_WORD_SIZE then
    (Outcome.assert_failed, log0)
  else if ¬ (value.size % (CORE_ADDR_MOD : Int) ≤ 8) then
    (Outcome.assert_failed, log0)
  else
    let addr := bytes_to_value value.size value.value
    let daddr := core_add addr (to_core_addr SM_OFFSET_DESCRIPTOR)
    let log1 := log0 ++ [Event.target_read daddr TARGET_WORD_SIZE.toNat]
    match gdb.target_read daddr TARGET_WORD_SIZE.toNat with
    | none => (Outcome.returned gdb_status.GDB_FAIL, log1 ++ [Event.free value])
    | some data =>
      let descriptor := bytes_to_value TARGET_WORD_SIZE data
      if descriptor_rejected descriptor then
        (Outcome.returned gdb_status.GDB_FAIL, log1 ++ [Event.free value])
      else
        let sp := allocate_register TARGET_WORD_SIZE
          (core_add (core_add addr (descriptor >>> FRAMESIZE_SHIFT))
            (to_core_addr SM_ENTRYFRAME_SIZE))
        let raddr := core_add addr (to_core_addr SM_OFFSET_RETURN_ADDRESS)
        let log2 := log1 ++ [Event.reg_set AMD64_RSP_REGNUM sp,
          Event.target_read raddr TARGET_WORD_SIZE.toNat]
        match gdb.target_read raddr TARGET_WORD_SIZE.toNat with
        | none => (Outcome.returned gdb_status.GDB_FAIL, log2 ++ [Event.free value])
        | some data2 =>
          let pc := allocate_register TARGET_WORD_SIZE
            (bytes_to_value TARGET_WORD_SIZE data2)
          (Outcome.returned gdb_status.GDB_SUCCESS,
            log2 ++ [Event.reg_set AMD64_RIP_REGNUM pc, Event.free value])

/-- The C function `spidermonkey_get_frame_id`, with the log of its host
calls.  Its three leading assertions and the assertion on the status of the
memory read end the call when they fail. -/
def spidermonkey_get_frame_id (gdb : gdb_unwind_callbacks) :
    Outcome gdb_frame_id × List Event :=
  let value := gdb.reg_get AMD64_RSP_REGNUM
  let log0 := [Event.reg_get AMD64_RSP_REGNUM]
  if value.defined = 0 then
    (Outcome.assert_failed, log0)
  else if value.size ≠ TARGET_WORD_SIZE then
    (Outcome.assert_failed, log0)
  else if ¬ (value.size % (CORE_ADDR_MOD : Int) ≤ 8) then
    (Outcome.assert_failed, log0)
  else
    let stack_address := bytes_to_value value.size value.value
    let raddr := core_add stack_address (to_core_addr SM_OFFSET_RETURN_ADDRESS)
    let log1 := log0 ++ [Event.target_read raddr TARGET_WORD_SIZE.toNat]
    match gdb.target_read raddr TARGET_WORD_SIZE.toNat with
    | none => (Outcome.assert_failed, log1)
    | some data =>
      (Outcome.returned
        { code_address := bytes_to_value TARGET_WORD_SIZE data
          stack_address := stack_address },
        log1 ++ [Event.free value])

/-- The C function `spidermonkey_destroy`: nothing to do. -/
def spidermonkey_destroy : Unit := ()

/-! ## `py-jit.c`

The Python C API is not part of the repository; the functions of it that
`py-jit.c` calls are given here by their documented behaviour on the objects
of `PyObject`.  The object handed to the reader wraps `gdb`, and offers only
`get_register` and `read_memory`: whatever the reader does with it, it cannot
call `reg_set`, so the log of `unwind` and `get_frame_id` records the method
call itself and the calls `py-jit.c` makes afterwards. -/

/-- What the surroundings of one call of `py-jit.c` decide: the result of
`PyObject_CallMethod (reader, name, "(O)", callbacks)` (`none` is the null
result, an exception is then pending; a non-null result comes with no exception
pending), whether `PyObject_New` in `make_callbacks` succeeds, and whether
the `malloc` of `make_value` succeeds for the entry at a given position. -/
structure PyEnv where
  call_method : PyObject → Method → gdb_unwind_callbacks → Option PyObject
  new_callbacks : Bool
  malloc_ok : Nat → Bool

/-- The static variables `module` and `reader` of `py-jit.c`, after
`gdb_init_reader` has set `module`.  A null `reader` is `none`. -/
structure PyJit where
  module : PyObject
  reader : Option PyObject
deriving DecidableEq, Repr

/-- One reference-count operation on a Python object. -/
inductive RefOp where
  | incref (o : PyObject)
  | decref (o : PyObject)
deriving DecidableEq, Repr

/-- The object `Py_None`. -/
def Py_None : PyObject := PyObject.atom PyAtom.None

/-- Conversion of a `Py_ssize_t` to `int`, as in `(int) len`: reduction
modulo `2 ^ 32` into the range of a 32-bit signed integer. -/
def to_int (n : Int) : Int := (n + 2 ^ 31) % 2 ^ 32 - 2 ^ 31

/-- The C API function `PyObject_Not`: 1 for a false object, 0 for a true
one. -/
def PyObject_Not : PyObject → Int
  | PyObject.atom PyAtom.None => 1
  | PyObject.atom (PyAtom.Int n) => if n = 0 then 1 else 0
  | PyObject.atom (PyAtom.Bytes bs) => if bs = [] then 1 else 0
  | PyObject.atom (PyAtom.Object _) => 0
  | PyObject.tuple items => if items = [] then 1 else 0
  | PyObject.list items => if items = [] then 1 else 0

/-- The C API function `PyObject_GetIter`, as the items the iterator will
yield; `none` is the null result (the object is not iterable, an exception is
pending).  A `bytearray` yields its bytes as integers. -/
def PyObject_GetIter : PyObject → Option (List PyAtom)
  | PyObject.atom (PyAtom.Bytes bs) => some (bs.map (fun b => PyAtom.Int (b.val : Int)))
  | PyObject.atom _ => none
  | PyObject.tuple items => some items
  | PyObject.list items => some items

/-- The C API function `PyObject_GetBuffer (obj, &view, PyBUF_SIMPLE)`:
`some` bytes (`view.buf`, of length `view.len`) when it returns 0, `none`
when it returns -1 with an exception pending. -/
def PyObject_GetBuffer : PyAtom → Option (List Byte)
  | PyAtom.Bytes bs => some bs
  | _ => none

/-- The C API function `PyArg_ParseTuple (args, "KK", &code_addr,
&stack_addr)`: its return value (1 on success, 0 on failure, never negative)
and the contents of the two variables afterwards.  Each integer is stored,
reduced modulo `2 ^ 64`, as soon as it is converted; a variable whose
argument was not converted keeps what it held. -/
def PyArg_ParseTuple_KK (args : PyObject) (code_addr stack_addr : Nat) :
    Int × Nat × Nat :=
  match args with
  | PyObject.tuple [PyAtom.Int c, PyAtom.Int s] => (1, to_core_addr c, to_core_addr s)
  | PyObject.tuple [PyAtom.Int c, _] => (0, to_core_addr c, stack_addr)
  | _ => (0, code_addr, stack_addr)

/-- The C function `read_debug_info`: not supported, reports success. -/
def read_debug_info : gdb_status := gdb_status.GDB_SUCCESS

/-- The C function `make_value (void *bytes, Py_ssize_t len)`; `none` is the
null result returned when `malloc` fails (an exception is then pending). -/
def make_value (malloc_ok : Bool) (bytes : List Byte) (len : Nat) :
    Option gdb_reg_value :=
  if malloc_ok then
    some { size := to_int (len : Int)
           defined := 1
           free := gdb_reg_value_free.free_value
           value := bytes.take len }
  else none

/-- The largest value of a C `int` (32 bits). -/
def INT_MAX : Nat := 2147483647

/-- How the `for` loop of `unwind` ends: the iterator is exhausted with no
exception pending, the loop is left by `break` with an exception pending, or
`++regno` is executed while `regno` holds `INT_MAX`. -/
inductive LoopEnd where
  | exhausted
  | exception
  | overflow
deriving DecidableEq, Repr

/-- The `for` loop of `unwind` over the items of the iterator, with the
`int regno` holding `regno`: how the loop ends, and the `reg_set` calls made.
The increment `++regno` runs after every item that does not `break`, the
last one included, before `PyIter_Next` is asked for the next item; when
`regno` holds `INT_MAX` that increment overflows and the loop ends there. -/
def unwind_loop (malloc_ok : Nat → Bool) : Nat → List PyAtom → LoopEnd × List Event
  | _, [] => (LoopEnd.exhausted, [])
  | regno, PyAtom.None :: rest =>
    if regno = INT_MAX then (LoopEnd.overflow, [])
    else unwind_loop malloc_ok (regno + 1) rest
  | regno, one_reg :: rest =>
    match PyObject_GetBuffer one_reg with
    | none => (LoopEnd.exception, [])
    | some view =>
      match make_value (malloc_ok regno) view view.length with
      | none => (LoopEnd.exception, [])
      | some v =>
        if regno = INT_MAX then (LoopEnd.overflow, [Event.reg_set (regno : Int) v])
        else
          let r := unwind_loop malloc_ok (regno + 1) rest
          (r.1, Event.reg_set (regno : Int) v :: r.2)

/-- The C function `unwind` of `py-jit.c`.  When `make_callbacks` returns
null the code jumps to `done` and executes `Py_DECREF (callbacks)` on the null
pointer.  When the loop overflows `regno` the call ends with
`Outcome.signed_overflow`. -/
def unwind (env : PyEnv) (st : PyJit) (gdb : gdb_unwind_callbacks) :
    Outcome gdb_status × List Event :=
  match st.reader with
  | none => (Outcome.returned gdb_status.GDB_FAIL, [])
  | some reader =>
    if env.new_callbacks = false then (Outcome.null_deref, [])
    else
      let log0 := [Event.call_method reader Method.unwind]
      match env.call_method reader Method.unwind gdb with
      | none => (Outcome.returned gdb_status.GDB_FAIL, log0)
      | some regs =>
        if PyObject_Not regs ≠ 0 then (Outcome.returned gdb_status.GDB_FAIL, log0)
        else
          match PyObject_GetIter regs with
          | none => (Outcome.returned gdb_status.GDB_FAIL, log0)
          | some iter =>
            let r := unwind_loop env.malloc_ok 0 iter
            match r.1 with
            | LoopEnd.exhausted => (Outcome.returned gdb_status.GDB_SUCCESS, log0 ++ r.2)
            | LoopEnd.exception => (Outcome.returned gdb_status.GDB_FAIL, log0 ++ r.2)
            | LoopEnd.overflow => (Outcome.signed_overflow, log0 ++ r.2)

/-- The C function `get_frame_id` of `py-jit.c`.  `code_addr` and
`stack_addr` are the contents of the two uninitialised local variables of
those names when the block is entered. -/
def get_frame_id (env : PyEnv) (st : PyJit) (gdb : gdb_unwind_callbacks)
    (code_addr stack_addr : Nat) : gdb_frame_id × List Event :=
  let result : gdb_frame_id := { code_address := 0, stack_address := 0 }
  match st.reader with
  | none => (result, [])
  | some reader =>
    if env.new_callbacks = false then (result, [])
    else
      let log0 := [Event.call_method reader Method.get_frame_id]
      match env.call_method reader Method.get_frame_id gdb with
      | none => (result, log0)
      | some frame_id =>
        let p := PyArg_ParseTuple_KK frame_id code_addr stack_addr
        if p.1 ≥ 0 then
          ({ code_address := p.2.1, stack_address := p.2.2 }, log0)
        else (result, log0)

/-- The C function `destroy` of `py-jit.c`: `Py_XDECREF (reader);
Py_DECREF (module);`.  Neither static variable is assigned. -/
def destroy (st : PyJit) : PyJit × List RefOp :=
  (st, (match st.reader with
        | none => []
        | some r => [RefOp.decref r]) ++ [RefOp.decref st.module])

/-- The C function `add_jit` (Python name `register_jit_reader`): the object
returned, the static variables afterwards, and the reference-count operations
made. -/
def add_jit (st : PyJit) (arg : PyObject) : PyObject × PyJit × List RefOp :=
  match st.reader with
  | none => (Py_None, { st with reader := some arg },
      [RefOp.incref Py_None, RefOp.incref arg])
  | some old => (old, { st with reader := some arg }, [RefOp.incref arg])

/-! ## Example targets -/

/-- A host whose SP register holds the 8 bytes `sp`, whose memory answers a
read at `daddr` with `desc`, a read at `raddr` with `ret` when there is one,
and no other read. -/
def example_target (sp : List Byte) (daddr : Nat) (desc : List Byte)
    (raddr : Nat) (ret : Option (List Byte)) : gdb_unwind_callbacks :=
  { reg_get := fun _ =>
      { size := 8, defined := 1, free := gdb_reg_value_free.host, value := sp }
    target_read := fun addr _ =>
      if addr = daddr then some desc
      else if addr = raddr then ret
      else none }

/-- The bytes that `bytes_to_value` decodes to `0x1000`. -/
def sp_0x1000 : List Byte := [0, 0, 0, 0, 0, 0, 0x10, 0]

/-- The synthetic target of the specification: SP is `0x1000`, the word at
`0x1008` encodes kind 3 and size 16, the word at `0x1000` is `0xCAFEBABE`. -/
def synthetic_target : gdb_unwind_callbacks :=
  example_target sp_0x1000 0x1008 [0, 0, 0, 0, 0, 0, 0x01, 0x03]
    0x1000 (some [0, 0, 0, 0, 0xCA, 0xFE, 0xBA, 0xBE])

/-- A host whose SP register is not defined. -/
def undefined_sp_target : gdb_unwind_callbacks :=
  { reg_get := fun _ =>
      { size := 8, defined := 0, free := gdb_reg_value_free.host, value := [] }
    target_read := fun _ _ => none }

/-- The synthetic target with the descriptor word replaced by `desc`. -/
def descriptor_target (desc : List Byte) : gdb_unwind_callbacks :=
  example_target sp_0x1000 0x1008 desc
    0x1000 (some [0, 0, 0, 0, 0xCA, 0xFE, 0xBA, 0xBE])

/-- The synthetic target with the word at `0x1000` unreadable: the
descriptor at `0x1008` is still kind 3, size 16. -/
def unreadable_return_target : gdb_unwind_callbacks :=
  example_target sp_0x1000 0x1008 [0, 0, 0, 0, 0, 0, 0x01, 0x03] 0x1000 none

/-- The frame above the synthetic one, as the host presents it after the
unwind: its SP register holds the value `allocate_register 8 0x1030` that
`spidermonkey_unwind` wrote, and all memory reads as zero bytes. -/
def caller_frame_target : gdb_unwind_callbacks :=
  { reg_get := fun _ => allocate_register 8 0x1030
    target_read := fun _ _ => some [0, 0, 0, 0, 0, 0, 0, 0] }

/-- The Python object of one entry of the sequence a reader's `unwind`
returns: `None` for an absent register, a `bytearray` for a present one. -/
def entry_object : Option (List Byte) → PyAtom
  | none => PyAtom.None
  | some bs => PyAtom.Bytes bs

/-- The register value the specification asks for a present entry: defined,
of size the number of bytes, holding those bytes. -/
def value_of_bytes (bs : List Byte) : gdb_reg_value :=
  { size := (bs.length : Int)
    defined := 1
    free := gdb_reg_value_free.free_value
    value := bs }

/-- The register writes the specification asks of the delegated `unwind` for
a result sequence: for each present entry, at its position in the sequence,
the value built from its bytes. -/
def register_application (entries : List (Option (List Byte))) : List (Int × gdb_reg_value) :=
  entries.enum.filterMap (fun p => p.2.map (fun bs => ((p.1 : Int), value_of_bytes bs)))

/-- Surroundings in which every allocation succeeds and the reader's methods
answer with fixed results, whatever the reader and the target. -/
def example_env (unwind_result frame_id_result : Option PyObject) : PyEnv :=
  { call_method := fun _ m _ =>
      match m with
      | Method.unwind => unwind_result
      | Method.get_frame_id => frame_id_result
    new_callbacks := true
    malloc_ok := fun _ => true }

/-- Two reader objects and the module object. -/
def reader_p : PyObject := PyObject.atom (PyAtom.Object 1)
def reader_q : PyObject := PyObject.atom (PyAtom.Object 2)
def module_object : PyObject := PyObject.atom (PyAtom.Object 0)

/-- The static variables right after `gdb_init_reader`: no reader. -/
def initial_state : PyJit := { module := module_object, reader := none }

/-- The static variables with `reader_p` registered. -/
def registered_state : PyJit := { module := module_object, reader := some reader_p }

/-- A byte sequence of `2 ^ 31` zero bytes. -/
def long_bytes : List Byte := List.replicate 2147483648 0

/-- A result sequence of `2 ^ 31` entries, all absent. -/
def long_absent : List (Option (List Byte)) := List.replicate 2147483648 none

/-! ## Arithmetic of `GDB_CORE_ADDR` -/

theorem bytes_to_value_loop_lt (i : Nat) (value : List Byte) (result : Nat)
    (h : result < CORE_ADDR_MOD) :
    bytes_to_value_loop i value result < CORE_ADDR_MOD := by
  induction i generalizing value result with
  | zero => simpa [bytes_to_value_loop] using h
  | succ i ih =>
    rw [bytes_to_value_loop]
    apply ih
    have h1 : (result <<< 8) % CORE_ADDR_MOD < 2 ^ 64 := Nat.mod_lt _ (by decide)
    have h2 : (value.headD 0).val < 2 ^ 64 :=
      Nat.lt_trans (value.headD 0).isLt (by decide)
    exact Nat.or_lt_two_pow h1 h2

theorem bytes_to_value_lt (size : Int) (value : List Byte) :
    bytes_to_value size value < CORE_ADDR_MOD :=
  bytes_to_value_loop_lt _ _ _ (by decide)

theorem core_add_zero (a : Nat) (h : a < CORE_ADDR_MOD) :
    core_add a (to_core_addr SM_OFFSET_RETURN_ADDRESS) = a := by
  have h0 : to_core_addr SM_OFFSET_RETURN_ADDRESS = 0 := by decide
  rw [h0, core_add, Nat.add_zero, Nat.mod_eq_of_lt h]

theorem core_add_descriptor (a : Nat) :
    core_add a (to_core_addr SM_OFFSET_DESCRIPTOR) = (a + 8) % 2 ^ 64 := by
  have h0 : to_core_addr SM_OFFSET_DESCRIPTOR = 8 := by decide
  rw [h0, core_add, CORE_ADDR_MOD]

theorem core_add_entryframe (a s : Nat) :
    core_add (core_add a s) (to_core_addr SM_ENTRYFRAME_SIZE) = (a + s + 32) % 2 ^ 64 := by
  have h0 : to_core_addr SM_ENTRYFRAME_SIZE = 32 := by decide
  rw [h0, core_add, core_add, CORE_ADDR_MOD, Nat.mod_add_mod]

theorem descriptor_rejected_eq_false_iff (d : Nat) :
    descriptor_rejected d = false ↔ (d &&& 0xF ≤ 12 ∧ d >>> 4 ≤ 150) := by
  have h0 : (1 <<< FRAMETYPE_BITS) - 1 = 0xF := by decide
  simp only [descriptor_rejected, h0, FRAMESIZE_SHIFT, Bool.or_eq_false_iff, decide_eq_false_iff_not,
    Nat.not_lt, gt_iff_lt]

/-- The body of `spidermonkey_unwind` once SP is known to be a defined 8-byte
value: the two memory reads decide the result. -/
theorem spidermonkey_unwind_defined (gdb : gdb_unwind_callbacks)
    (hdef : (gdb.reg_get 7).defined ≠ 0) (hsize : (gdb.reg_get 7).size = 8) :
    spidermonkey_unwind gdb =
      (match gdb.target_read ((bytes_to_value 8 (gdb.reg_get 7).value + 8) % 2 ^ 64) 8 with
       | none => (Outcome.returned gdb_status.GDB_FAIL,
           [Event.reg_get 7,
            Event.target_read ((bytes_to_value 8 (gdb.reg_get 7).value + 8) % 2 ^ 64) 8,
            Event.free (gdb.reg_get 7)])
       | some data =>
         if descriptor_rejected (bytes_to_value 8 data) then
           (Outcome.returned gdb_status.GDB_FAIL,
             [Event.reg_get 7,
              Event.target_read ((bytes_to_value 8 (gdb.reg_get 7).value + 8) % 2 ^ 64) 8,
              Event.free (gdb.reg_get 7)])
         else
           match gdb.target_read (bytes_to_value 8 (gdb.reg_get 7).value) 8 with
           | none => (Outcome.returned gdb_status.GDB_FAIL,
               [Event.reg_get 7,
                Event.target_read ((bytes_to_value 8 (gdb.reg_get 7).value + 8) % 2 ^ 64) 8,
                Event.reg_set 7 (allocate_register 8
                  ((bytes_to_value 8 (gdb.reg_get 7).value
                    + (bytes_to_value 8 data >>> 4) + 32) % 2 ^ 64)),
                Event.target_read (bytes_to_value 8 (gdb.reg_get 7).value) 8,
                Event.free (gdb.reg_get 7)])
           | some data2 => (Outcome.returned gdb_status.GDB_SUCCESS,
               [Event.reg_get 7,
                Event.target_read ((bytes_to_value 8 (gdb.reg_get 7).value + 8) % 2 ^ 64) 8,
                Event.reg_set 7 (allocate_register 8
                  ((bytes_to_value 8 (gdb.reg_get 7).value
                    + (bytes_to_value 8 data >>> 4) + 32) % 2 ^ 64)),
                Event.target_read (bytes_to_value 8 (gdb.reg_get 7).value) 8,
                Event.reg_set 16 (allocate_register 8 (bytes_to_value 8 data2)),
                Event.free (gdb.reg_get 7)])) := by
  have hz := core_add_zero _ (bytes_to_value_lt 8 (gdb.reg_get 7).value)
  have hw : TARGET_WORD_SIZE.toNat = 8 := by decide
  have hm : ((8 : Int) % (CORE_ADDR_MOD : Int) ≤ 8) := by decide
  simp only [spidermonkey_unwind, AMD64_RSP_REGNUM, AMD64_RIP_REGNUM, TARGET_WORD_SIZE] at *
  simp only [hdef, hsize, hz, hw, hm, core_add_descriptor, core_add_entryframe, FRAMESIZE_SHIFT,
    if_false, ne_eq, not_true_eq_false, List.cons_append, List.nil_append, List.singleton_append]

/-- The whole of `spidermonkey_unwind` when the SP value is not defined. -/
theorem spidermonkey_unwind_undefined (gdb : gdb_unwind_callbacks)
    (hundef : (gdb.reg_get 7).defined = 0) :
    spidermonkey_unwind gdb =
      (Outcome.returned gdb_status.GDB_FAIL,
        [Event.reg_get 7, Event.free (gdb.reg_get 7)]) := by
  simp only [spidermonkey_unwind, AMD64_RSP_REGNUM, hundef, if_true, List.singleton_append]

/-- The body of `spidermonkey_get_frame_id` once SP is known to be a defined
8-byte value: the memory read decides the result. -/
theorem spidermonkey_get_frame_id_defined (gdb : gdb_unwind_callbacks)
    (hdef : (gdb.reg_get 7).defined ≠ 0) (hsize : (gdb.reg_get 7).size = 8) :
    spidermonkey_get_frame_id gdb =
      (match gdb.target_read (bytes_to_value 8 (gdb.reg_get 7).value) 8 with
       | none => (Outcome.assert_failed,
           [Event.reg_get 7,
            Event.target_read (bytes_to_value 8 (gdb.reg_get 7).value) 8])
       | some data =>
           (Outcome.returned
              { code_address := bytes_to_value 8 data
                stack_address := bytes_to_value 8 (gdb.reg_get 7).value },
            [Event.reg_get 7,
             Event.target_read (bytes_to_value 8 (gdb.reg_get 7).value) 8,
             Event.free (gdb.reg_get 7)])) := by
  have hz := core_add_zero _ (bytes_to_value_lt 8 (gdb.reg_get 7).value)
  have hw : TARGET_WORD_SIZE.toNat = 8 := by decide
  have hm : ((8 : Int) % (CORE_ADDR_MOD : Int) ≤ 8) := by decide
  simp only [spidermonkey_get_frame_id, AMD64_RSP_REGNUM, TARGET_WORD_SIZE] at *
  simp only [hdef, hsize, hz, hw, hm, if_false, ne_eq, not_true_eq_false, List.cons_append,
    List.nil_append, List.singleton_append]

/-! ## The native unwinder (`sm-unwinder.c`) -/

/-- Claim C1, as amended: when SP is a defined 8-byte value decoding to
`addr`, the read at `addr + 8` succeeds with a word `d` of kind at most 12
and size at most 150, and the read at `addr + 0` succeeds with a word `ra`,
`spidermonkey_unwind` returns `GDB_SUCCESS` and makes exactly two register
writes, in this order: register 7 gets the 8-byte defined value built from
`addr + (d >> 4) + 32` modulo `2 ^ 64`, then register 16 gets the value of 8
bytes, defined, built from `ra`. -/
theorem native_unwind_success (gdb : gdb_unwind_callbacks) (addr d ra : Nat)
    (data data2 : List Byte)
    (hdef : (gdb.reg_get 7).defined ≠ 0) (hsize : (gdb.reg_get 7).size = 8)
    (haddr : bytes_to_value 8 (gdb.reg_get 7).value = addr)
    (hread : gdb.target_read ((addr + 8) % 2 ^ 64) 8 = some data)
    (hd : bytes_to_value 8 data = d)
    (hkind : d &&& 0xF ≤ 12) (hframe : d >>> 4 ≤ 150)
    (hread2 : gdb.target_read (addr + 0) 8 = some data2)
    (hra : bytes_to_value 8 data2 = ra) :
    (spidermonkey_unwind gdb).1 = Outcome.returned gdb_status.GDB_SUCCESS
    ∧ reg_sets (spidermonkey_unwind gdb).2 =
        [((7 : Int), allocate_register 8 ((addr + (d >>> 4) + 32) % 2 ^ 64)),
         (16, allocate_register 8 ra)]
    ∧ (allocate_register 8 ((addr + (d >>> 4) + 32) % 2 ^ 64)).size = 8
    ∧ (allocate_register 8 ((addr + (d >>> 4) + 32) % 2 ^ 64)).defined = 1
    ∧ (allocate_register 8 ra).size = 8
    ∧ (allocate_register 8 ra).defined = 1 := by
  have hp : descriptor_rejected (bytes_to_value 8 data) = false := by
    rw [descriptor_rejected_eq_false_iff, hd]; exact ⟨hkind, hframe⟩
  rw [Nat.add_zero] at hread2
  subst haddr hd hra
  rw [spidermonkey_unwind_defined gdb hdef hsize]
  simp only [hread, hread2, hp, reg_sets, allocate_register, Bool.false_eq_true, if_false,
    and_self]

/-- The instance of claim C1 on the synthetic target of the specification
(SP `0x1000`, descriptor `0x103`, return address `0xCAFEBABE`): the stack
pointer written is `0x1000 + 16 + 32 = 0x1030`. -/
theorem native_unwind_success_witness :
    (spidermonkey_unwind synthetic_target).1 = Outcome.returned gdb_status.GDB_SUCCESS
    ∧ reg_sets (spidermonkey_unwind synthetic_target).2 =
        [((7 : Int), allocate_register 8 0x1030), (16, allocate_register 8 0xCAFEBABE)] :=
  have h := native_unwind_success synthetic_target 0x1000 0x103 0xCAFEBABE
    [0, 0, 0, 0, 0, 0, 0x01, 0x03] [0, 0, 0, 0, 0xCA, 0xFE, 0xBA, 0xBE]
    (by decide) (by decide) (by decide) (by decide) (by decide) (by decide) (by decide)
    (by decide) (by decide)
  ⟨h.1, h.2.1⟩

/-- Claim C1 as stated fails on its own instance: on the synthetic target
(SP decoding to `0x1000`, descriptor word `0x103`, return address
`0xCAFEBABE`) the register writes are not SP := `0x1020`, PC := `0xCAFEBABE`;
the value written to SP is built from `0x1030`. -/
theorem native_unwind_instance_not_0x1020 :
    bytes_to_value 8 (synthetic_target.reg_get 7).value = 0x1000
    ∧ (synthetic_target.target_read 0x1008 8).map (bytes_to_value 8) = some 0x103
    ∧ (synthetic_target.target_read 0x1000 8).map (bytes_to_value 8) = some 0xCAFEBABE
    ∧ (spidermonkey_unwind synthetic_target).1 = Outcome.returned gdb_status.GDB_SUCCESS
    ∧ reg_sets (spidermonkey_unwind synthetic_target).2 ≠
        [((7 : Int), allocate_register 8 0x1020), (16, allocate_register 8 0xCAFEBABE)]
    ∧ reg_sets (spidermonkey_unwind synthetic_target).2 =
        [((7 : Int), allocate_register 8 0x1030), (16, allocate_register 8 0xCAFEBABE)] := by
  decide

/-- Claim C2: when SP is a defined 8-byte value and the descriptor word `d`
read at SP + 8 has kind above 12 or size above 150, `spidermonkey_unwind`
returns `GDB_FAIL` and makes no `reg_set` call. -/
theorem native_unwind_heuristic_rejection (gdb : gdb_unwind_callbacks) (addr d : Nat)
    (data : List Byte)
    (hdef : (gdb.reg_get 7).defined ≠ 0) (hsize : (gdb.reg_get 7).size = 8)
    (haddr : bytes_to_value 8 (gdb.reg_get 7).value = addr)
    (hread : gdb.target_read ((addr + 8) % 2 ^ 64) 8 = some data)
    (hd : bytes_to_value 8 data = d)
    (himpl : ¬ (d &&& 0xF ≤ 12 ∧ d >>> 4 ≤ 150)) :
    (spidermonkey_unwind gdb).1 = Outcome.returned gdb_status.GDB_FAIL
    ∧ reg_sets (spidermonkey_unwind gdb).2 = [] := by
  have hp : descriptor_rejected (bytes_to_value 8 data) = true := by
    rw [← Bool.not_eq_false, descriptor_rejected_eq_false_iff, hd]; exact himpl
  subst haddr hd
  rw [spidermonkey_unwind_defined gdb hdef hsize]
  simp only [hread, hp, reg_sets, if_true, and_self]

/-- Claim C2 on the three descriptors it names: size 200 (kind 3), kind 13
with size 0, and kind 0 with size 151. -/
theorem native_unwind_heuristic_rejection_witness :
    ((spidermonkey_unwind (descriptor_target [0, 0, 0, 0, 0, 0, 0x0C, 0x83])).1
        = Outcome.returned gdb_status.GDB_FAIL
      ∧ reg_sets (spidermonkey_unwind (descriptor_target [0, 0, 0, 0, 0, 0, 0x0C, 0x83])).2 = [])
    ∧ ((spidermonkey_unwind (descriptor_target [0, 0, 0, 0, 0, 0, 0, 0x0D])).1
        = Outcome.returned gdb_status.GDB_FAIL
      ∧ reg_sets (spidermonkey_unwind (descriptor_target [0, 0, 0, 0, 0, 0, 0, 0x0D])).2 = [])
    ∧ ((spidermonkey_unwind (descriptor_target [0, 0, 0, 0, 0, 0, 0x09, 0x70])).1
        = Outcome.returned gdb_status.GDB_FAIL
      ∧ reg_sets (spidermonkey_unwind (descriptor_target [0, 0, 0, 0, 0, 0, 0x09, 0x70])).2 = []) :=
  ⟨native_unwind_heuristic_rejection (descriptor_target [0, 0, 0, 0, 0, 0, 0x0C, 0x83]) 0x1000
      (200 * 16 + 3) [0, 0, 0, 0, 0, 0, 0x0C, 0x83]
      (by decide) (by decide) (by decide) (by decide) (by decide) (by decide),
   native_unwind_heuristic_rejection (descriptor_target [0, 0, 0, 0, 0, 0, 0, 0x0D]) 0x1000
      (0 * 16 + 13) [0, 0, 0, 0, 0, 0, 0, 0x0D]
      (by decide) (by decide) (by decide) (by decide) (by decide) (by decide),
   native_unwind_heuristic_rejection (descriptor_target [0, 0, 0, 0, 0, 0, 0x09, 0x70]) 0x1000
      (151 * 16 + 0) [0, 0, 0, 0, 0, 0, 0x09, 0x70]
      (by decide) (by decide) (by decide) (by decide) (by decide) (by decide)⟩

/-- Claim C8: when `reg_get` answers register 7 with a value whose `defined`
member is 0, `spidermonkey_unwind` returns `GDB_FAIL`, makes no `target_read`
call and no `reg_set` call, and releases the fetched value exactly once. -/
theorem native_unwind_sp_undefined (gdb : gdb_unwind_callbacks)
    (hundef : (gdb.reg_get 7).defined = 0) :
    spidermonkey_unwind gdb =
      (Outcome.returned gdb_status.GDB_FAIL, [Event.reg_get 7, Event.free (gdb.reg_get 7)])
    ∧ target_reads (spidermonkey_unwind gdb).2 = []
    ∧ reg_sets (spidermonkey_unwind gdb).2 = []
    ∧ frees (spidermonkey_unwind gdb).2 = [gdb.reg_get 7] := by
  rw [spidermonkey_unwind_undefined gdb hundef]
  simp only [target_reads, reg_sets, frees, and_self]

/-- Claim C8 on a host whose SP register is not defined. -/
theorem native_unwind_sp_undefined_witness :
    spidermonkey_unwind undefined_sp_target =
      (Outcome.returned gdb_status.GDB_FAIL,
        [Event.reg_get 7, Event.free (undefined_sp_target.reg_get 7)])
    ∧ target_reads (spidermonkey_unwind undefined_sp_target).2 = []
    ∧ reg_sets (spidermonkey_unwind undefined_sp_target).2 = []
    ∧ frees (spidermonkey_unwind undefined_sp_target).2 = [undefined_sp_target.reg_get 7] :=
  native_unwind_sp_undefined undefined_sp_target (by decide)

/-- Claim C6: when SP is a defined 8-byte value decoding to `sp` and the
read at `sp + 0` succeeds with a word `ra`, `spidermonkey_get_frame_id`
returns the identity with code address `ra` and stack address `sp`, and makes
no register write. -/
theorem native_get_frame_id_value (gdb : gdb_unwind_callbacks) (sp ra : Nat)
    (data : List Byte)
    (hdef : (gdb.reg_get 7).defined ≠ 0) (hsize : (gdb.reg_get 7).size = 8)
    (hsp : bytes_to_value 8 (gdb.reg_get 7).value = sp)
    (hread : gdb.target_read (sp + 0) 8 = some data)
    (hra : bytes_to_value 8 data = ra) :
    (spidermonkey_get_frame_id gdb).1
      = Outcome.returned { code_address := ra, stack_address := sp }
    ∧ reg_sets (spidermonkey_get_frame_id gdb).2 = [] := by
  rw [Nat.add_zero] at hread
  subst hsp hra
  rw [spidermonkey_get_frame_id_defined gdb hdef hsize]
  simp only [hread, reg_sets, and_self]

/-- Claim C6 on the synthetic target of the specification: the identity is
code address `0xCAFEBABE`, stack address `0x1000`. -/
theorem native_get_frame_id_value_witness :
    (spidermonkey_get_frame_id synthetic_target).1
      = Outcome.returned { code_address := 0xCAFEBABE, stack_address := 0x1000 }
    ∧ reg_sets (spidermonkey_get_frame_id synthetic_target).2 = [] :=
  native_get_frame_id_value synthetic_target 0x1000 0xCAFEBABE
    [0, 0, 0, 0, 0xCA, 0xFE, 0xBA, 0xBE]
    (by decide) (by decide) (by decide) (by decide) (by decide)

/-- Claim C3 as stated fails: on a target whose SP is the defined 8-byte
value `0x1000` and whose word at `0x1000` cannot be read,
`spidermonkey_get_frame_id` returns no identity at all, the all-zero one
included: its assertion on the status of the read fails. -/
theorem native_get_frame_id_aborts :
    (unreadable_return_target.reg_get 7).defined = 1
    ∧ (unreadable_return_target.reg_get 7).size = 8
    ∧ bytes_to_value 8 (unreadable_return_target.reg_get 7).value = 0x1000
    ∧ unreadable_return_target.target_read 0x1000 8 = none
    ∧ (spidermonkey_get_frame_id unreadable_return_target).1 = Outcome.assert_failed
    ∧ (spidermonkey_get_frame_id unreadable_return_target).1
        ≠ Outcome.returned { code_address := 0, stack_address := 0 } := by
  decide

/-- Claim C3, as amended: when SP is a defined 8-byte value and the read of
the return address at SP + 0 fails, `spidermonkey_get_frame_id` returns no
identity: the assertion `status == GDB_SUCCESS` fails and the call ends there,
after one `reg_get` and one `target_read`, with no register write. -/
theorem native_get_frame_id_read_failure (gdb : gdb_unwind_callbacks)
    (hdef : (gdb.reg_get 7).defined ≠ 0) (hsize : (gdb.reg_get 7).size = 8)
    (hread : gdb.target_read (bytes_to_value 8 (gdb.reg_get 7).value + 0) 8 = none) :
    spidermonkey_get_frame_id gdb =
      (Outcome.assert_failed,
        [Event.reg_get 7, Event.target_read (bytes_to_value 8 (gdb.reg_get 7).value) 8])
    ∧ (∀ id : gdb_frame_id, (spidermonkey_get_frame_id gdb).1 ≠ Outcome.returned id)
    ∧ reg_sets (spidermonkey_get_frame_id gdb).2 = [] := by
  rw [Nat.add_zero] at hread
  rw [spidermonkey_get_frame_id_defined gdb hdef hsize]
  simp only [hread, reg_sets, ne_eq, reduceCtorEq, not_false_eq_true, implies_true, and_self]

/-- Claim C3, as amended, on the target whose word at `0x1000` cannot be
read. -/
theorem native_get_frame_id_read_failure_witness :
    spidermonkey_get_frame_id unreadable_return_target =
      (Outcome.assert_failed, [Event.reg_get 7, Event.target_read 0x1000 8])
    ∧ (∀ id : gdb_frame_id,
        (spidermonkey_get_frame_id unreadable_return_target).1 ≠ Outcome.returned id)
    ∧ reg_sets (spidermonkey_get_frame_id unreadable_return_target).2 = [] :=
  native_get_frame_id_read_failure unreadable_return_target
    (by decide) (by decide) (by decide)

/-- Claim C9 fails on the code: the bytes `allocate_register` builds for the
address `0x1030` decode under `bytes_to_value` to `0x3010000000000000`, so the
SP that `spidermonkey_unwind` writes for the synthetic frame is fetched for the
next frame by `spidermonkey_get_frame_id` as stack address
`0x3010000000000000`. -/
theorem register_round_trip_reverses_bytes :
    (allocate_register 8 0x1030).value = [0x30, 0x10, 0, 0, 0, 0, 0, 0]
    ∧ bytes_to_value 8 (allocate_register 8 0x1030).value = 0x3010000000000000
    ∧ bytes_to_value 8 (allocate_register 8 0x1030).value ≠ 0x1030
    ∧ reg_sets (spidermonkey_unwind synthetic_target).2
        = [((7 : Int), caller_frame_target.reg_get 7), (16, allocate_register 8 0xCAFEBABE)]
    ∧ (spidermonkey_get_frame_id caller_frame_target).1
        = Outcome.returned { code_address := 0, stack_address := 0x3010000000000000 } := by
  decide

/-- Claim C10 as stated fails: on the target whose descriptor is plausible
(kind 3, size 16) and whose return address at SP + 0 cannot be read,
`spidermonkey_unwind` returns `GDB_FAIL` after it has written SP. -/
theorem native_unwind_fail_after_sp_write :
    (spidermonkey_unwind unreadable_return_target).1 = Outcome.returned gdb_status.GDB_FAIL
    ∧ reg_sets (spidermonkey_unwind unreadable_return_target).2
        = [((7 : Int), allocate_register 8 0x1030)]
    ∧ reg_sets (spidermonkey_unwind unreadable_return_target).2 ≠ [] := by
  decide

/-- Claim C10, as amended: when `spidermonkey_unwind` returns `GDB_FAIL` it
has made no `reg_set` call, except when SP is defined, the descriptor read at
SP + 8 is plausible and the read of the return address at SP + 0 fails: then
it has made exactly one, the write of SP + size + 32 to register 7.  Register
16 is never written by an unwind that fails. -/
theorem native_unwind_fail_reg_sets (gdb : gdb_unwind_callbacks)
    (hfail : (spidermonkey_unwind gdb).1 = Outcome.returned gdb_status.GDB_FAIL) :
    ((∃ data : List Byte,
        (gdb.reg_get 7).defined ≠ 0
        ∧ gdb.target_read ((bytes_to_value 8 (gdb.reg_get 7).value + 8) % 2 ^ 64) 8 = some data
        ∧ (bytes_to_value 8 data &&& 0xF ≤ 12 ∧ bytes_to_value 8 data >>> 4 ≤ 150)
        ∧ gdb.target_read (bytes_to_value 8 (gdb.reg_get 7).value + 0) 8 = none
        ∧ reg_sets (spidermonkey_unwind gdb).2 =
            [((7 : Int), allocate_register 8
              ((bytes_to_value 8 (gdb.reg_get 7).value
                + (bytes_to_value 8 data >>> 4) + 32) % 2 ^ 64))])
     ∨ ((¬ ∃ data : List Byte,
          (gdb.reg_get 7).defined ≠ 0
          ∧ gdb.target_read ((bytes_to_value 8 (gdb.reg_get 7).value + 8) % 2 ^ 64) 8
              = some data
          ∧ (bytes_to_value 8 data &&& 0xF ≤ 12 ∧ bytes_to_value 8 data >>> 4 ≤ 150)
          ∧ gdb.target_read (bytes_to_value 8 (gdb.reg_get 7).value + 0) 8 = none)
        ∧ reg_sets (spidermonkey_unwind gdb).2 = []))
    ∧ (∀ v : gdb_reg_value, ((16 : Int), v) ∉ reg_sets (spidermonkey_unwind gdb).2) := by
  by_cases hdef : (gdb.reg_get 7).defined = 0
  · rw [spidermonkey_unwind_undefined gdb hdef]
    refine ⟨Or.inr ⟨?_, rfl⟩, fun v hv => by simp [reg_sets] at hv⟩
    rintro ⟨data, hd, _⟩
    exact hd hdef
  · by_cases hsize : (gdb.reg_get 7).size = 8
    · rw [spidermonkey_unwind_defined gdb hdef hsize] at hfail ⊢
      simp only [Nat.add_zero]
      cases h1 : gdb.target_read ((bytes_to_value 8 (gdb.reg_get 7).value + 8) % 2 ^ 64) 8 with
      | none =>
        refine ⟨Or.inr ⟨?_, rfl⟩, fun v hv => by simp [reg_sets] at hv⟩
        rintro ⟨data, _, hd, _⟩
        cases hd
      | some data =>
        cases hp : descriptor_rejected (bytes_to_value 8 data) with
        | true =>
          have hnp : ¬ (bytes_to_value 8 data &&& 0xF ≤ 12 ∧ bytes_to_value 8 data >>> 4 ≤ 150) := by
            rw [← descriptor_rejected_eq_false_iff, hp]; decide
          refine ⟨Or.inr ⟨?_, by simp [reg_sets, hp]⟩, fun v hv => by simp [reg_sets, hp] at hv⟩
          rintro ⟨data1, _, hd, hpl, _⟩
          cases hd
          exact hnp hpl
        | false =>
          have hpl := (descriptor_rejected_eq_false_iff _).1 hp
          cases h2 : gdb.target_read (bytes_to_value 8 (gdb.reg_get 7).value) 8 with
          | none =>
            refine ⟨Or.inl ⟨data, hdef, rfl, hpl, rfl, by simp [reg_sets, hp]⟩,
              fun v hv => by simp [reg_sets, hp] at hv⟩
          | some data2 =>
            rw [h1] at hfail
            simp [hp, h2] at hfail
    · exfalso
      have hs : (gdb.reg_get 7).size ≠ TARGET_WORD_SIZE := hsize
      simp [spidermonkey_unwind, AMD64_RSP_REGNUM, hdef, hs] at hfail

/-- Claim C10, as amended, on the target whose descriptor is plausible and
whose return address cannot be read. -/
theorem native_unwind_fail_reg_sets_witness :
    (spidermonkey_unwind unreadable_return_target).1 = Outcome.returned gdb_status.GDB_FAIL
    ∧ (∀ v : gdb_reg_value,
        ((16 : Int), v) ∉ reg_sets (spidermonkey_unwind unreadable_return_target).2) :=
  ⟨by decide, (native_unwind_fail_reg_sets unreadable_return_target (by decide)).2⟩

/-! ## The delegated unwinder (`py-jit.c`) -/

theorem to_int_of_lt (n : Nat) (h : n < 2 ^ 31) : to_int (n : Int) = (n : Int) := by
  unfold to_int
  omega

/-- The value `make_value` builds from a whole buffer when `malloc`
succeeds. -/
theorem make_value_whole (bs : List Byte) :
    make_value true bs bs.length =
      some { size := to_int (bs.length : Int)
             defined := 1
             free := gdb_reg_value_free.free_value
             value := bs } := by
  simp only [make_value, if_true, List.take_length]

/-- The loop of the delegated `unwind` over a sequence of absent entries and
byte sequences, when every allocation succeeds and `regno` stays within
`INT_MAX`: the iterator is exhausted with no exception pending, and the
register writes are those of the present entries, each at the position of its
entry. -/
theorem unwind_loop_entries (malloc_ok : Nat → Bool) (hm : ∀ i, malloc_ok i = true)
    (entries : List (Option (List Byte))) (regno : Nat)
    (hcount : regno + entries.length ≤ INT_MAX) :
    (unwind_loop malloc_ok regno (entries.map entry_object)).1 = LoopEnd.exhausted
    ∧ reg_sets (unwind_loop malloc_ok regno (entries.map entry_object)).2 =
        (entries.enumFrom regno).filterMap (fun p => p.2.map (fun bs =>
          ((p.1 : Int),
            ({ size := to_int (bs.length : Int)
               defined := 1
               free := gdb_reg_value_free.free_value
               value := bs } : gdb_reg_value)))) := by
  induction entries generalizing regno with
  | nil => exact ⟨rfl, rfl⟩
  | cons e rest ih =>
    rw [List.length_cons] at hcount
    have hlt : regno ≠ INT_MAX := by omega
    have hrest : regno + 1 + rest.length ≤ INT_MAX := by omega
    cases e with
    | none =>
      simp only [List.map_cons, entry_object, unwind_loop, hlt, if_false, List.enumFrom_cons,
        List.filterMap_cons, Option.map_none']
      exact ih (regno + 1) hrest
    | some bs =>
      simp only [List.map_cons, entry_object, unwind_loop, PyObject_GetBuffer, hm,
        make_value_whole, hlt, if_false, List.enumFrom_cons, List.filterMap_cons,
        Option.map_some', reg_sets]
      exact ⟨(ih (regno + 1) hrest).1, by rw [(ih (regno + 1) hrest).2]⟩

/-- The loop of the delegated `unwind` over absent entries only: when there
are more of them than `regno` can count up to `INT_MAX`, the loop ends in the
overflow of `regno`, with no register write. -/
theorem unwind_loop_absent_overflow (malloc_ok : Nat → Bool) (k regno : Nat)
    (hle : regno ≤ INT_MAX) (hgt : INT_MAX < regno + k) :
    unwind_loop malloc_ok regno (List.replicate k PyAtom.None) = (LoopEnd.overflow, []) := by
  induction k generalizing regno with
  | zero => omega
  | succ k ih =>
    rw [List.replicate_succ, unwind_loop]
    by_cases h : regno = INT_MAX
    · simp only [h, if_true]
    · simp only [h, if_false]
      exact ih (regno + 1) (by omega) (by omega)

/-- The delegated `unwind` on a non-empty result sequence of fewer than
`2 ^ 31` absent entries and byte sequences, when every allocation succeeds. -/
theorem unwind_entries (env : PyEnv) (st : PyJit) (gdb : gdb_unwind_callbacks)
    (reader regs : PyObject) (entries : List (Option (List Byte)))
    (hreader : st.reader = some reader) (hnew : env.new_callbacks = true)
    (hcall : env.call_method reader Method.unwind gdb = some regs)
    (hregs : regs = PyObject.list (entries.map entry_object)
      ∨ regs = PyObject.tuple (entries.map entry_object))
    (hne : entries ≠ [])
    (hcount : entries.length < 2 ^ 31)
    (hm : ∀ i, env.malloc_ok i = true) :
    (unwind env st gdb).1 = Outcome.returned gdb_status.GDB_SUCCESS
    ∧ reg_sets (unwind env st gdb).2 =
        entries.enum.filterMap (fun p => p.2.map (fun bs =>
          ((p.1 : Int),
            ({ size := to_int (bs.length : Int)
               defined := 1
               free := gdb_reg_value_free.free_value
               value := bs } : gdb_reg_value)))) := by
  have hl := unwind_loop_entries env.malloc_ok hm entries 0
    (by rw [Nat.zero_add, INT_MAX]; omega)
  have hne2 : entries.map entry_object ≠ [] := by
    simpa using hne
  have hnot : PyObject_Not regs = 0 := by
    rcases hregs with h | h <;> rw [h] <;> simp only [PyObject_Not, hne2, if_false]
  have hiter : PyObject_GetIter regs = some (entries.map entry_object) := by
    rcases hregs with h | h <;> rw [h] <;> rfl
  simp only [unwind, hreader, hnew, hcall, hnot, hiter, hl.1, Bool.true_eq_false, if_false,
    ne_eq, not_true_eq_false, if_true, List.singleton_append, reg_sets, hl.2, List.enum,
    and_self]

/-- The delegated `unwind` on a non-empty list whose loop overflows `regno`:
the call ends in that overflow, after the register writes of the loop. -/
theorem unwind_of_loop_overflow (env : PyEnv) (st : PyJit) (gdb : gdb_unwind_callbacks)
    (reader : PyObject) (items : List PyAtom) (log : List Event)
    (hreader : st.reader = some reader) (hnew : env.new_callbacks = true)
    (hcall : env.call_method reader Method.unwind gdb = some (PyObject.list items))
    (hne : items ≠ [])
    (hloop : unwind_loop env.malloc_ok 0 items = (LoopEnd.overflow, log)) :
    unwind env st gdb
      = (Outcome.signed_overflow, Event.call_method reader Method.unwind :: log) := by
  simp only [unwind, hreader, hnew, hcall, PyObject_Not, hne, if_false, PyObject_GetIter,
    hloop, Bool.true_eq_false, ne_eq, not_true_eq_false, List.singleton_append]

/-- Claim C7, as amended: for every non-empty result sequence of the reader's
`unwind` that has fewer than `2 ^ 31` entries, each absent or a byte sequence
of fewer than `2 ^ 31` bytes, when value allocation succeeds, the delegated
`unwind` returns `GDB_SUCCESS` and its `reg_set` calls are exactly, in
increasing position, one per present entry, at the register number equal to
the position, with a value that is defined, has the number of bytes as its
size and holds those bytes; absent entries get no call and still advance the
register number. -/
theorem delegated_unwind_register_application (env : PyEnv) (st : PyJit)
    (gdb : gdb_unwind_callbacks) (reader regs : PyObject)
    (entries : List (Option (List Byte)))
    (hreader : st.reader = some reader) (hnew : env.new_callbacks = true)
    (hcall : env.call_method reader Method.unwind gdb = some regs)
    (hregs : regs = PyObject.list (entries.map entry_object)
      ∨ regs = PyObject.tuple (entries.map entry_object))
    (hne : entries ≠ [])
    (hcount : entries.length < 2 ^ 31)
    (hm : ∀ i, env.malloc_ok i = true)
    (hlen : ∀ bs, some bs ∈ entries → bs.length < 2 ^ 31) :
    (unwind env st gdb).1 = Outcome.returned gdb_status.GDB_SUCCESS
    ∧ reg_sets (unwind env st gdb).2 = register_application entries := by
  have h := unwind_entries env st gdb reader regs entries hreader hnew hcall hregs hne
    hcount hm
  refine ⟨h.1, ?_⟩
  rw [h.2, register_application]
  apply List.filterMap_congr
  rintro ⟨i, e⟩ hmem
  cases e with
  | none => simp only [Option.map_none']
  | some bs =>
    have hb : bs.length < 2 ^ 31 := by
      obtain ⟨hi, he⟩ := List.mem_enum hmem
      exact hlen bs (he ▸ List.getElem_mem hi)
    simp only [Option.map_some', value_of_bytes, to_int_of_lt _ hb]

/-- Claim C7, as amended, on the sequence of `None`, the two bytes 1 and 2,
`None` and the empty byte sequence:
registers 1 and 3 are written, registers 0 and 2 are not. -/
theorem delegated_unwind_register_application_witness :
    (unwind (example_env (some (PyObject.list
        [PyAtom.None, PyAtom.Bytes [1, 2], PyAtom.None, PyAtom.Bytes []])) none)
      registered_state synthetic_target).1 = Outcome.returned gdb_status.GDB_SUCCESS
    ∧ reg_sets (unwind (example_env (some (PyObject.list
        [PyAtom.None, PyAtom.Bytes [1, 2], PyAtom.None, PyAtom.Bytes []])) none)
      registered_state synthetic_target).2 =
        [((1 : Int), value_of_bytes [1, 2]), ((3 : Int), value_of_bytes [])] :=
  delegated_unwind_register_application
    (example_env (some (PyObject.list
        [PyAtom.None, PyAtom.Bytes [1, 2], PyAtom.None, PyAtom.Bytes []])) none)
    registered_state synthetic_target reader_p
    (PyObject.list [PyAtom.None, PyAtom.Bytes [1, 2], PyAtom.None, PyAtom.Bytes []])
    [none, some [1, 2], none, some []]
    rfl rfl rfl (Or.inl rfl) (by decide) (by decide) (fun _ => rfl)
    (by
      intro bs hbs
      simp only [List.mem_cons, Option.some.injEq, List.mem_singleton, reduceCtorEq,
        false_or, List.not_mem_nil, or_false] at hbs
      rcases hbs with rfl | rfl <;> decide)

/-- Claim C7 as stated fails, on the two `int` variables of the code.  For
the one-entry result sequence holding a byte sequence of `2 ^ 31` bytes, with
every allocation succeeding, the value written to register 0 has size
`-2147483648`, not the length of the entry.  For the result sequence of
`2 ^ 31` absent entries, `unwind` does not return `GDB_SUCCESS`: the loop
executes `++regno` with `regno` at `INT_MAX`. -/
theorem delegated_unwind_size_truncated :
    long_absent ≠ []
    ∧ unwind (example_env (some (PyObject.list (long_absent.map entry_object))) none)
        registered_state synthetic_target
      = (Outcome.signed_overflow, [Event.call_method reader_p Method.unwind])
    ∧ (unwind (example_env (some (PyObject.list (long_absent.map entry_object))) none)
        registered_state synthetic_target).1 ≠ Outcome.returned gdb_status.GDB_SUCCESS
    ∧ long_bytes.length = 2147483648
    ∧ (unwind (example_env (some (PyObject.list [PyAtom.Bytes long_bytes])) none)
        registered_state synthetic_target).1 = Outcome.returned gdb_status.GDB_SUCCESS
    ∧ reg_sets (unwind (example_env (some (PyObject.list [PyAtom.Bytes long_bytes])) none)
        registered_state synthetic_target).2 =
          [((0 : Int),
            ({ size := -2147483648
               defined := 1
               free := gdb_reg_value_free.free_value
               value := long_bytes } : gdb_reg_value))]
    ∧ reg_sets (unwind (example_env (some (PyObject.list [PyAtom.Bytes long_bytes])) none)
        registered_state synthetic_target).2 ≠ register_application [some long_bytes] := by
  have hlen : long_bytes.length = 2147483648 := List.length_replicate _ _
  have hsz : to_int ((2147483648 : Nat) : Int) = -2147483648 := by decide
  have habs : long_absent.map entry_object = List.replicate 2147483648 PyAtom.None := by
    simp only [long_absent, List.map_replicate, entry_object]
  have hne : long_absent ≠ [] := by
    intro h0
    have hl := congrArg List.length h0
    simp only [long_absent, List.length_replicate, List.length_nil] at hl
    omega
  have hne2 : List.replicate 2147483648 PyAtom.None ≠ [] := by
    intro h0
    have hl := congrArg List.length h0
    simp only [List.length_replicate, List.length_nil] at hl
    omega
  have hloop := unwind_loop_absent_overflow (fun _ => true) 2147483648 0
    (by decide) (by decide)
  have hover : unwind (example_env (some (PyObject.list (long_absent.map entry_object))) none)
        registered_state synthetic_target
      = (Outcome.signed_overflow, [Event.call_method reader_p Method.unwind]) :=
    unwind_of_loop_overflow
      (example_env (some (PyObject.list (long_absent.map entry_object))) none)
      registered_state synthetic_target reader_p (long_absent.map entry_object) []
      rfl rfl rfl (habs ▸ hne2) (habs ▸ hloop)
  have h := unwind_entries
    (example_env (some (PyObject.list [PyAtom.Bytes long_bytes])) none)
    registered_state synthetic_target reader_p (PyObject.list [PyAtom.Bytes long_bytes])
    [some long_bytes] rfl rfl rfl (Or.inl rfl) (List.cons_ne_nil _ _)
    (by rw [List.length_singleton]; decide) (fun _ => rfl)
  have hset : reg_sets (unwind (example_env (some (PyObject.list [PyAtom.Bytes long_bytes])) none)
        registered_state synthetic_target).2 =
          [((0 : Int),
            ({ size := -2147483648
               defined := 1
               free := gdb_reg_value_free.free_value
               value := long_bytes } : gdb_reg_value))] := by
    rw [h.2]
    simp only [List.enum, List.enumFrom_cons, List.enumFrom_nil, List.filterMap_cons,
      List.filterMap_nil, Option.map_some', hlen, hsz, Nat.cast_zero]
  refine ⟨hne, hover, by rw [hover]; simp only [ne_eq, reduceCtorEq, not_false_eq_true],
    hlen, h.1, hset, ?_⟩
  rw [hset]
  simp only [register_application, List.enum, List.enumFrom_cons, List.enumFrom_nil,
    List.filterMap_cons, List.filterMap_nil, Option.map_some', value_of_bytes, hlen,
    Nat.cast_zero, ne_eq, List.cons.injEq, Prod.mk.injEq, gdb_reg_value.mk.injEq, and_true,
    true_and]
  decide

/-- The return value of `PyArg_ParseTuple` is never negative, so the test
`PyArg_ParseTuple (...) >= 0` of `get_frame_id` always passes. -/
theorem PyArg_ParseTuple_KK_nonneg (args : PyObject) (code_addr stack_addr : Nat) :
    (PyArg_ParseTuple_KK args code_addr stack_addr).1 ≥ 0 := by
  unfold PyArg_ParseTuple_KK
  split <;> simp only [ge_iff_le, zero_le_one, le_refl]

/-- Claim C5 fails on the code: with the two local variables holding 0 on
entry, a reader whose `get_frame_id` answers the pair `(5, None)` makes the
delegated `get_frame_id` return code address 5; and with the locals holding 1
and 2, a three-element tuple, a list of two integers and a bare integer each
make it return `(1, 2)`.  None of these results is `(0, 0)`. -/
theorem delegated_get_frame_id_malformed :
    (get_frame_id (example_env none (some (PyObject.tuple [PyAtom.Int 5, PyAtom.None])))
        registered_state synthetic_target 0 0).1
      = { code_address := 5, stack_address := 0 }
    ∧ (get_frame_id
        (example_env none (some (PyObject.tuple [PyAtom.Int 5, PyAtom.Int 6, PyAtom.Int 7])))
        registered_state synthetic_target 1 2).1
      = { code_address := 1, stack_address := 2 }
    ∧ (get_frame_id (example_env none (some (PyObject.list [PyAtom.Int 5, PyAtom.Int 6])))
        registered_state synthetic_target 1 2).1
      = { code_address := 1, stack_address := 2 }
    ∧ (get_frame_id (example_env none (some (PyObject.atom (PyAtom.Int 5))))
        registered_state synthetic_target 1 2).1
      = { code_address := 1, stack_address := 2 }
    ∧ (get_frame_id (example_env none (some (PyObject.tuple [PyAtom.Int 5, PyAtom.None])))
        registered_state synthetic_target 0 0).1
      ≠ { code_address := 0, stack_address := 0 } := by
  decide

/-- Registering a reader when one is active returns the active one and makes
the new one active. -/
theorem add_jit_returns_previous (st : PyJit) (p q : PyObject)
    (h : st.reader = some q) :
    (add_jit st p).1 = q ∧ (add_jit st p).2.1.reader = some p := by
  simp only [add_jit, h, and_self]

/-- Registering a reader when none is active returns `None` and makes the new
one active. -/
theorem add_jit_returns_none (st : PyJit) (p : PyObject) (h : st.reader = none) :
    (add_jit st p).1 = Py_None ∧ (add_jit st p).2.1.reader = some p := by
  simp only [add_jit, h, and_self]

/-- The function `destroy` leaves the static variable `reader` as it was. -/
theorem destroy_keeps_reader (st : PyJit) : (destroy st).1.reader = st.reader := rfl

/-- Claim C4 fails on the code in its last part.  Registering `reader_q`
when none is active returns `None`, and registering `reader_p` next returns
`reader_q` and makes `reader_p` active; but after `destroy` the slot still
holds `reader_p`: a subsequent `unwind` calls its `unwind` method and returns
`GDB_SUCCESS`, and a subsequent `get_frame_id` calls its `get_frame_id` method
and returns `(1, 2)`. -/
theorem destroy_leaves_reader_active :
    (add_jit initial_state reader_q).1 = Py_None
    ∧ (add_jit initial_state reader_q).2.1.reader = some reader_q
    ∧ (add_jit (add_jit initial_state reader_q).2.1 reader_p).1 = reader_q
    ∧ (add_jit (add_jit initial_state reader_q).2.1 reader_p).2.1 = registered_state
    ∧ (destroy registered_state).1.reader = some reader_p
    ∧ (destroy registered_state).2 = [RefOp.decref reader_p, RefOp.decref module_object]
    ∧ unwind (example_env (some (PyObject.list [PyAtom.Bytes [1, 2]]))
          (some (PyObject.tuple [PyAtom.Int 1, PyAtom.Int 2])))
        (destroy registered_state).1 synthetic_target
      = (Outcome.returned gdb_status.GDB_SUCCESS,
          [Event.call_method reader_p Method.unwind,
           Event.reg_set 0 (value_of_bytes [1, 2])])
    ∧ get_frame_id (example_env (some (PyObject.list [PyAtom.Bytes [1, 2]]))
          (some (PyObject.tuple [PyAtom.Int 1, PyAtom.Int 2])))
        (destroy registered_state).1 synthetic_target 0 0
      = ({ code_address := 1, stack_address := 2 },
          [Event.call_method reader_p Method.get_frame_id]) := by
  decide

/-- With no reader registered, the delegated `unwind` returns `GDB_FAIL` and
`get_frame_id` returns `(0, 0)`, neither calling any Python method. -/
theorem no_reader_no_call (env : PyEnv) (st : PyJit) (gdb : gdb_unwind_callbacks)
    (code_addr stack_addr : Nat) (h : st.reader = none) :
    unwind env st gdb = (Outcome.returned gdb_status.GDB_FAIL, [])
    ∧ get_frame_id env st gdb code_addr stack_addr
        = ({ code_address := 0, stack_address := 0 }, []) := by
  simp only [unwind, get_frame_id, h, and_self]

end SpiderMonkey
